import Mathlib

/-
Verification development for the HTTP request-routing and dispatch core of
the springbootplusplus_web repository: a shallow embedding in Lean 4 of the
endpoint trie (EndpointTrie.h), the dispatcher (HttpRequestDispatcher.h),
the type-conversion helpers (UrlDecode / ConvertToType), the response
envelope conversion (ResponseEntityToHttpResponse.h), the two-lane response
queue (HttpResponseQueue.h) and the request/response processors, together
with theorems settling the frozen claims about them.
-/

set_option autoImplicit false

namespace SBPP

/-- The transport origin tag carried by every request and response
(RequestSource in the C++ sources; spec section 3: source is one of
LocalServer, CloudServer). -/
inductive RequestSource where
  | LocalServer
  | CloudServer
deriving DecidableEq, Repr

/-- HTTP verbs served by the dispatcher (HttpMethod in the C++ sources). -/
inductive HttpMethod where
  | GET | POST | PUT | PATCH | DELETE | OPTIONS | HEAD | TRACE | CONNECT
deriving DecidableEq, Repr

/-- HttpStatus enumeration from HttpStatus.h (codes 100 to 511). -/
inductive HttpStatus where
  | CONTINUE | SWITCHING_PROTOCOLS | PROCESSING | EARLY_HINTS
  | OK | CREATED | ACCEPTED | NON_AUTHORITATIVE_INFORMATION | NO_CONTENT
  | RESET_CONTENT | PARTIAL_CONTENT | MULTI_STATUS | ALREADY_REPORTED | IM_USED
  | MULTIPLE_CHOICES | MOVED_PERMANENTLY | FOUND | SEE_OTHER | NOT_MODIFIED
  | USE_PROXY | TEMPORARY_REDIRECT | PERMANENT_REDIRECT
  | BAD_REQUEST | UNAUTHORIZED | PAYMENT_REQUIRED | FORBIDDEN | NOT_FOUND
  | METHOD_NOT_ALLOWED | NOT_ACCEPTABLE | PROXY_AUTHENTICATION_REQUIRED
  | REQUEST_TIMEOUT | CONFLICT | GONE | LENGTH_REQUIRED | PRECONDITION_FAILED
  | PAYLOAD_TOO_LARGE | URI_TOO_LONG | UNSUPPORTED_MEDIA_TYPE
  | RANGE_NOT_SATISFIABLE | EXPECTATION_FAILED | IM_A_TEAPOT
  | MISDIRECTED_REQUEST | UNPROCESSABLE_ENTITY | LOCKED | FAILED_DEPENDENCY
  | TOO_EARLY | UPGRADE_REQUIRED | PRECONDITION_REQUIRED | TOO_MANY_REQUESTS
  | REQUEST_HEADER_FIELDS_TOO_LARGE | UNAVAILABLE_FOR_LEGAL_REASONS
  | INTERNAL_SERVER_ERROR | NOT_IMPLEMENTED | BAD_GATEWAY | SERVICE_UNAVAILABLE
  | GATEWAY_TIMEOUT | HTTP_VERSION_NOT_SUPPORTED | VARIANT_ALSO_NEGOTIATES
  | INSUFFICIENT_STORAGE | LOOP_DETECTED | NOT_EXTENDED
  | NETWORK_AUTHENTICATION_REQUIRED
deriving DecidableEq, Repr

/-- StatusToInt from HttpStatus.h: the numeric value of a status. -/
def statusToInt : HttpStatus → Nat
  | .CONTINUE => 100 | .SWITCHING_PROTOCOLS => 101 | .PROCESSING => 102
  | .EARLY_HINTS => 103
  | .OK => 200 | .CREATED => 201 | .ACCEPTED => 202
  | .NON_AUTHORITATIVE_INFORMATION => 203 | .NO_CONTENT => 204
  | .RESET_CONTENT => 205 | .PARTIAL_CONTENT => 206 | .MULTI_STATUS => 207
  | .ALREADY_REPORTED => 208 | .IM_USED => 226
  | .MULTIPLE_CHOICES => 300 | .MOVED_PERMANENTLY => 301 | .FOUND => 302
  | .SEE_OTHER => 303 | .NOT_MODIFIED => 304 | .USE_PROXY => 305
  | .TEMPORARY_REDIRECT => 307 | .PERMANENT_REDIRECT => 308
  | .BAD_REQUEST => 400 | .UNAUTHORIZED => 401 | .PAYMENT_REQUIRED => 402
  | .FORBIDDEN => 403 | .NOT_FOUND => 404 | .METHOD_NOT_ALLOWED => 405
  | .NOT_ACCEPTABLE => 406 | .PROXY_AUTHENTICATION_REQUIRED => 407
  | .REQUEST_TIMEOUT => 408 | .CONFLICT => 409 | .GONE => 410
  | .LENGTH_REQUIRED => 411 | .PRECONDITION_FAILED => 412
  | .PAYLOAD_TOO_LARGE => 413 | .URI_TOO_LONG => 414
  | .UNSUPPORTED_MEDIA_TYPE => 415 | .RANGE_NOT_SATISFIABLE => 416
  | .EXPECTATION_FAILED => 417 | .IM_A_TEAPOT => 418
  | .MISDIRECTED_REQUEST => 421 | .UNPROCESSABLE_ENTITY => 422 | .LOCKED => 423
  | .FAILED_DEPENDENCY => 424 | .TOO_EARLY => 425 | .UPGRADE_REQUIRED => 426
  | .PRECONDITION_REQUIRED => 428 | .TOO_MANY_REQUESTS => 429
  | .REQUEST_HEADER_FIELDS_TOO_LARGE => 431
  | .UNAVAILABLE_FOR_LEGAL_REASONS => 451
  | .INTERNAL_SERVER_ERROR => 500 | .NOT_IMPLEMENTED => 501
  | .BAD_GATEWAY => 502 | .SERVICE_UNAVAILABLE => 503 | .GATEWAY_TIMEOUT => 504
  | .HTTP_VERSION_NOT_SUPPORTED => 505 | .VARIANT_ALSO_NEGOTIATES => 506
  | .INSUFFICIENT_STORAGE => 507 | .LOOP_DETECTED => 508 | .NOT_EXTENDED => 510
  | .NETWORK_AUTHENTICATION_REQUIRED => 511

/-- GetStatusMessage from HttpStatus.h: the canonical reason phrase. -/
def getStatusMessage : HttpStatus → String
  | .CONTINUE => "Continue" | .SWITCHING_PROTOCOLS => "Switching Protocols"
  | .PROCESSING => "Processing" | .EARLY_HINTS => "Early Hints"
  | .OK => "OK" | .CREATED => "Created" | .ACCEPTED => "Accepted"
  | .NON_AUTHORITATIVE_INFORMATION => "Non-Authoritative Information"
  | .NO_CONTENT => "No Content" | .RESET_CONTENT => "Reset Content"
  | .PARTIAL_CONTENT => "Partial Content" | .MULTI_STATUS => "Multi-Status"
  | .ALREADY_REPORTED => "Already Reported" | .IM_USED => "IM Used"
  | .MULTIPLE_CHOICES => "Multiple Choices"
  | .MOVED_PERMANENTLY => "Moved Permanently" | .FOUND => "Found"
  | .SEE_OTHER => "See Other" | .NOT_MODIFIED => "Not Modified"
  | .USE_PROXY => "Use Proxy" | .TEMPORARY_REDIRECT => "Temporary Redirect"
  | .PERMANENT_REDIRECT => "Permanent Redirect"
  | .BAD_REQUEST => "Bad Request" | .UNAUTHORIZED => "Unauthorized"
  | .PAYMENT_REQUIRED => "Payment Required" | .FORBIDDEN => "Forbidden"
  | .NOT_FOUND => "Not Found" | .METHOD_NOT_ALLOWED => "Method Not Allowed"
  | .NOT_ACCEPTABLE => "Not Acceptable"
  | .PROXY_AUTHENTICATION_REQUIRED => "Proxy Authentication Required"
  | .REQUEST_TIMEOUT => "Request Timeout" | .CONFLICT => "Conflict"
  | .GONE => "Gone" | .LENGTH_REQUIRED => "Length Required"
  | .PRECONDITION_FAILED => "Precondition Failed"
  | .PAYLOAD_TOO_LARGE => "Payload Too Large" | .URI_TOO_LONG => "URI Too Long"
  | .UNSUPPORTED_MEDIA_TYPE => "Unsupported Media Type"
  | .RANGE_NOT_SATISFIABLE => "Range Not Satisfiable"
  | .EXPECTATION_FAILED => "Expectation Failed"
  | .IM_A_TEAPOT => "I\x27m a teapot"
  | .MISDIRECTED_REQUEST => "Misdirected Request"
  | .UNPROCESSABLE_ENTITY => "Unprocessable Entity" | .LOCKED => "Locked"
  | .FAILED_DEPENDENCY => "Failed Dependency" | .TOO_EARLY => "Too Early"
  | .UPGRADE_REQUIRED => "Upgrade Required"
  | .PRECONDITION_REQUIRED => "Precondition Required"
  | .TOO_MANY_REQUESTS => "Too Many Requests"
  | .REQUEST_HEADER_FIELDS_TOO_LARGE => "Request Header Fields Too Large"
  | .UNAVAILABLE_FOR_LEGAL_REASONS => "Unavailable For Legal Reasons"
  | .INTERNAL_SERVER_ERROR => "Internal Server Error"
  | .NOT_IMPLEMENTED => "Not Implemented" | .BAD_GATEWAY => "Bad Gateway"
  | .SERVICE_UNAVAILABLE => "Service Unavailable"
  | .GATEWAY_TIMEOUT => "Gateway Timeout"
  | .HTTP_VERSION_NOT_SUPPORTED => "HTTP Version Not Supported"
  | .VARIANT_ALSO_NEGOTIATES => "Variant Also Negotiates"
  | .INSUFFICIENT_STORAGE => "Insufficient Storage"
  | .LOOP_DETECTED => "Loop Detected" | .NOT_EXTENDED => "Not Extended"
  | .NETWORK_AUTHENTICATION_REQUIRED => "Network Authentication Required"

/-- The request data the core reads (spec section 3: method, path, raw
body, request id, source; IHttpRequest accessors used by the dispatcher). -/
structure HttpRequest where
  method : HttpMethod
  path : String
  body : String
  requestId : String
  source : RequestSource
deriving DecidableEq, Repr

/-- Modelled from the spec (section 3, Wire Response) and from the
SimpleHttpResponse construction sites in ResponseEntityToHttpResponse.h:
the class SimpleHttpResponse itself is not under src/.  Its constructor
takes (requestId, source, statusCode, statusMessage, headers, body). -/
structure SimpleHttpResponse where
  requestId : String
  source : RequestSource
  statusCode : Nat
  statusMessage : String
  headers : List (String × String)
  body : String
deriving DecidableEq, Repr

/-- SetRequestId on a wire response (used by the dispatcher to stamp the
originating request id onto a freshly converted response). -/
def setRequestId (r : SimpleHttpResponse) (requestId : String) : SimpleHttpResponse :=
  { r with requestId := requestId }

/-- Modelled from the spec: SerializationUtility::Serialize for string
bodies.  The serializer is an external collaborator (spec sections 1 and 6)
whose contract requires strings to be serialized verbatim. -/
def serializeString (s : String) : String := s

/-- ResponseEntity of ResponseEntity.h specialised to string bodies:
status, headers and body, as produced by the static factories. -/
structure ResponseEntityString where
  status : HttpStatus
  headers : List (String × String)
  body : String
deriving DecidableEq, Repr

/-- ResponseEntity<StdString>::NotFound from ResponseEntity.h. -/
def ResponseEntityString.NotFound (body : String) : ResponseEntityString :=
  { status := HttpStatus.NOT_FOUND, headers := [], body := body }

/-- ResponseEntity<StdString>::InternalServerError from ResponseEntity.h. -/
def ResponseEntityString.InternalServerError (body : String) : ResponseEntityString :=
  { status := HttpStatus.INTERNAL_SERVER_ERROR, headers := [], body := body }

/-- ResponseEntity<StdString>::Ok from ResponseEntity.h. -/
def ResponseEntityString.Ok (body : String) : ResponseEntityString :=
  { status := HttpStatus.OK, headers := [], body := body }

/-- ResponseEntityConverter::ToHttpResponse<StdString> from
ResponseEntityToHttpResponse.h (the overload without a request id): the
status code and reason phrase come from the entity, the body is the
serialized entity body, the request id is empty, and the request source is
the constant RequestSource::LocalServer written at the construction site. -/
def toHttpResponse (entity : ResponseEntityString) : SimpleHttpResponse :=
  { requestId := ""
    source := RequestSource.LocalServer
    statusCode := statusToInt entity.status
    statusMessage := getStatusMessage entity.status
    headers := entity.headers
    body := serializeString entity.body }

/-- ResponseEntityConverter::CreateOkResponse from
ResponseEntityToHttpResponse.h (string body, without request id): a 200 OK
wire response with a Content-Type header and, again, the constant
RequestSource::LocalServer. -/
def createOkResponse (body : String) : SimpleHttpResponse :=
  { requestId := ""
    source := RequestSource.LocalServer
    statusCode := 200
    statusMessage := "OK"
    headers := [("Content-Type", "application/json")]
    body := serializeString body }

/-- Modelled from the spec: SimpleHttpResponse::ToHttpString is not under
src/.  Spec section 6: an HTTP/1.1 status line, serialized headers, a blank
line, then the body. -/
def toHttpString (r : SimpleHttpResponse) : String :=
  "HTTP/1.1 " ++ toString r.statusCode ++ " " ++ r.statusMessage ++ "\r\n"
    ++ (r.headers.foldl (fun acc h => acc ++ h.1 ++ ": " ++ h.2 ++ "\r\n") "")
    ++ "\r\n" ++ r.body

/-! Ordered associative maps, modelling std::map keyed by StdString:
lookup by key, insert-or-assign keeping keys in ascending order (the order
in which range-for iterates a std::map), and erase. -/

/-- Lexicographic comparison of character lists by code point, the order
std::less<std::string> induces on the (ASCII) keys used here. -/
def charListLt : List Char → List Char → Bool
  | [], [] => false
  | [], _ :: _ => true
  | _ :: _, [] => false
  | a :: as, b :: bs =>
    if a.toNat < b.toNat then true
    else if b.toNat < a.toNat then false
    else charListLt as bs

/-- The strict key order of std::map<StdString, _>: lexicographic string
comparison. -/
def stringLt (a b : String) : Bool := charListLt a.data b.data

/-- std::map::find. -/
def mapFind {α : Type} (k : String) : List (String × α) → Option α
  | [] => none
  | (k2, v) :: t => if k = k2 then some v else mapFind k t

/-- std::map operator[] assignment: insert or assign, keeping the entry
list sorted by key in ascending order, which is the iteration order of the
underlying red-black tree. -/
def mapInsert {α : Type} (k : String) (v : α) : List (String × α) → List (String × α)
  | [] => [(k, v)]
  | (k2, v2) :: t =>
    if stringLt k k2 then (k, v) :: (k2, v2) :: t
    else if k = k2 then (k, v) :: t
    else (k2, v2) :: mapInsert k v t

/-- std::map::erase by key. -/
def mapErase {α : Type} (k : String) : List (String × α) → List (String × α)
  | [] => []
  | (k2, v2) :: t => if k = k2 then t else (k2, v2) :: mapErase k t

/-- Keys of an associative map appear in strictly ascending order (the
representation invariant of the std::map model). -/
def keysSorted {α : Type} : List (String × α) → Bool
  | [] => true
  | [_] => true
  | a :: b :: t => if stringLt a.1 b.1 then keysSorted (b :: t) else false

/-! The endpoint trie of EndpointTrie.h. -/

/-- EndpointMatchResult from EndpointTrie.h: matched pattern, variable
bindings, and the found flag. -/
structure EndpointMatchResult where
  pattern : String
  vars : List (String × String)
  found : Bool
deriving DecidableEq, Repr

/-- The default-constructed EndpointMatchResult (no match). -/
def EndpointMatchResult.noMatch : EndpointMatchResult :=
  { pattern := "", vars := [], found := false }

/-- EndpointTrieNode from EndpointTrie.h: literal children and variable
children (both std::map keyed by segment text / variable name), the stored
endpoint pattern, and the endpoint flag. -/
inductive TrieNode where
  | mk (literalChildren : List (String × TrieNode))
       (variableChildren : List (String × TrieNode))
       (endpointPattern : String)
       (isEndpoint : Bool)

/-- Literal children accessor. -/
def TrieNode.literalChildren : TrieNode → List (String × TrieNode)
  | .mk l _ _ _ => l

/-- Variable children accessor. -/
def TrieNode.variableChildren : TrieNode → List (String × TrieNode)
  | .mk _ v _ _ => v

/-- Endpoint pattern accessor. -/
def TrieNode.endpointPattern : TrieNode → String
  | .mk _ _ p _ => p

/-- Endpoint flag accessor. -/
def TrieNode.isEndpoint : TrieNode → Bool
  | .mk _ _ _ e => e

/-- The freshly constructed EndpointTrieNode: no children, not an
endpoint. -/
def TrieNode.empty : TrieNode := .mk [] [] "" false

/-- The splitting loop of EndpointTrie::SplitPath over the characters of
the path (leading and trailing slashes already stripped): cut at every
slash and push only non-empty segments, mirroring the C++ find/substr
loop.  The accumulator holds the current segment in reverse. -/
def splitSegmentsAux : List Char → List Char → List String
  | [], acc => if acc.isEmpty then [] else [String.mk acc.reverse]
  | c :: t, acc =>
    if c = '/' then
      if acc.isEmpty then splitSegmentsAux t []
      else String.mk acc.reverse :: splitSegmentsAux t []
    else splitSegmentsAux t (c :: acc)

/-- EndpointTrie::SplitPath: split a path by the slash character, strip a
leading slash, drop empty segments produced by consecutive slashes, and
preserve a single sentinel empty segment at the end when the original path
ended with a slash and was not just the root path. -/
def splitPath (path : String) : List String :=
  if path = "" ∨ path = "/" then []
  else
    let cs0 := path.data
    let cs1 := match cs0 with
      | '/' :: t => t
      | _ => cs0
    let hasTrailingSlash := !cs1.isEmpty && decide (cs1.getLast? = some '/')
    let cs2 := if hasTrailingSlash then cs1.dropLast else cs1
    let segments := splitSegmentsAux cs2 []
    if hasTrailingSlash then segments ++ [""] else segments

/-- EndpointTrie::IsVariableSegment: at least two characters, starting
with an opening brace and ending with a closing brace. -/
def isVariableSegment (segment : String) : Bool :=
  decide (2 ≤ segment.length)
    && decide (segment.data.head? = some '\x7b')
    && decide (segment.data.getLast? = some '\x7d')

/-- EndpointTrie::ExtractVariableName: the interior of a variable segment
(substr from index one, length minus two). -/
def extractVariableName (segment : String) : String :=
  if isVariableSegment segment then String.mk (segment.data.drop 1).dropLast else ""

/-- EndpointTrie::Insert, in its recursion over the split segments:
descend through GetOrCreateLiteralChild / GetOrCreateVariableChild and mark
the final node with SetEndpointPattern. -/
def insertSegments : TrieNode → List String → String → TrieNode
  | node, [], pattern =>
    TrieNode.mk node.literalChildren node.variableChildren pattern true
  | node, seg :: rest, pattern =>
    if isVariableSegment seg then
      let varName := extractVariableName seg
      let child := match mapFind varName node.variableChildren with
        | some c => c
        | none => TrieNode.empty
      TrieNode.mk node.literalChildren
        (mapInsert varName (insertSegments child rest pattern) node.variableChildren)
        node.endpointPattern node.isEndpoint
    else
      let child := match mapFind seg node.literalChildren with
        | some c => c
        | none => TrieNode.empty
      TrieNode.mk (mapInsert seg (insertSegments child rest pattern) node.literalChildren)
        node.variableChildren node.endpointPattern node.isEndpoint

/-- Variable bindings accumulated during a trie search (the by-reference
std::map<StdString, StdString> of SearchRecursive). -/
abbrev Vars := List (String × String)

/-- The variable-children loop of EndpointTrie::SearchRecursive,
abstracted over the recursive search of one child: bind the variable,
search the child, return on success, otherwise erase the binding
(backtrack) and try the next sibling.  The by-reference variables map is
threaded through explicitly, so the state after each recursive call is the
one the next iteration observes. -/
def tryVariableChildren (search : TrieNode → Vars → EndpointMatchResult × Vars) :
    List (String × TrieNode) → String → Vars → EndpointMatchResult × Vars
  | [], _, vars => (EndpointMatchResult.noMatch, vars)
  | (varName, varChild) :: more, seg, vars =>
    let vars1 := mapInsert varName seg vars
    let res := search varChild vars1
    if res.1.found then res
    else tryVariableChildren search more seg (mapErase varName res.2)

/-- EndpointTrie::SearchRecursive, with an explicit recursion-depth bound
(fuel).  Every recursive call of the C++ function advances index by one,
so a fuel exceeding the number of remaining segments is always sufficient
and the fuel-exhausted branch is unreachable (searchRecFuel_congr below
proves the result does not depend on the bound).  When the segments are
exhausted the node must be an endpoint; a sentinel empty segment in last
position matches only an endpoint node with no variables bound; otherwise
a literal child is tried first and the variable children afterwards. -/
def searchRecFuel : Nat → TrieNode → List String → Vars → EndpointMatchResult × Vars
  | 0, _, _, vars => (EndpointMatchResult.noMatch, vars)
  | fuel + 1, node, segments, vars =>
    match segments with
    | [] =>
      if node.isEndpoint then
        ({ pattern := node.endpointPattern, vars := vars, found := true }, vars)
      else (EndpointMatchResult.noMatch, vars)
    | seg :: rest =>
      if seg = "" then
        if rest.isEmpty then
          if node.isEndpoint && vars.isEmpty then
            ({ pattern := node.endpointPattern, vars := vars, found := true }, vars)
          else (EndpointMatchResult.noMatch, vars)
        else
          tryVariableChildren (fun c v => searchRecFuel fuel c rest v)
            node.variableChildren seg vars
      else
        match mapFind seg node.literalChildren with
        | some literalChild =>
          let res := searchRecFuel fuel literalChild rest vars
          if res.1.found then res
          else
            tryVariableChildren (fun c v => searchRecFuel fuel c rest v)
              node.variableChildren seg res.2
        | none =>
          tryVariableChildren (fun c v => searchRecFuel fuel c rest v)
            node.variableChildren seg vars

/-- EndpointTrie::SearchRecursive: the fuel instantiated with a bound that
is always sufficient. -/
def searchRec (node : TrieNode) (segments : List String) (vars : Vars) :
    EndpointMatchResult × Vars :=
  searchRecFuel (segments.length + 1) node segments vars

/-- EndpointTrie::Insert on the root node. -/
def EndpointTrie.Insert (root : TrieNode) (pattern : String) : TrieNode :=
  insertSegments root (splitPath pattern) pattern

/-- EndpointTrie::Search on the root node: split the path, start with an
empty variables map, and return the match result. -/
def EndpointTrie.Search (root : TrieNode) (path : String) : EndpointMatchResult :=
  (searchRec root (splitPath path) []).1

/-! Type conversion: HttpRequestDispatcher::UrlDecode and
HttpRequestDispatcher::ConvertToType. -/

/-- The C-locale isdigit predicate used by the parsing model. -/
def cIsDigit (c : Char) : Bool := decide (48 ≤ c.toNat) && decide (c.toNat ≤ 57)

/-- The C-locale isspace predicate (space, tab, line feed, vertical tab,
form feed, carriage return) used by strtol-style whitespace skipping. -/
def cIsSpace (c : Char) : Bool :=
  decide (c.toNat = 32) || (decide (9 ≤ c.toNat) && decide (c.toNat ≤ 13))

/-- The C-locale isxdigit predicate used by UrlDecode. -/
def cIsXdigit (c : Char) : Bool :=
  cIsDigit c || (decide (97 ≤ c.toNat) && decide (c.toNat ≤ 102))
    || (decide (65 ≤ c.toNat) && decide (c.toNat ≤ 70))

/-- Value of one hexadecimal digit (assuming cIsXdigit holds). -/
def hexVal (c : Char) : Nat :=
  if cIsDigit c then c.toNat - 48
  else if decide (97 ≤ c.toNat) && decide (c.toNat ≤ 102) then c.toNat - 87
  else c.toNat - 55

/-- The character walk of HttpRequestDispatcher::UrlDecode: a percent sign
followed by two hexadecimal digits becomes the denoted byte; a percent sign
not followed by two hexadecimal digits (including one too close to the end
of the text) is kept literally; a plus sign becomes a space; every other
character is copied. -/
def urlDecodeList : List Char → List Char
  | [] => []
  | '%' :: c1 :: c2 :: rest =>
    if cIsXdigit c1 && cIsXdigit c2 then
      Char.ofNat (16 * hexVal c1 + hexVal c2) :: urlDecodeList rest
    else '%' :: urlDecodeList (c1 :: c2 :: rest)
  | '+' :: rest => ' ' :: urlDecodeList rest
  | c :: rest => c :: urlDecodeList rest

/-- HttpRequestDispatcher::UrlDecode on strings. -/
def urlDecode (s : String) : String := String.mk (urlDecodeList s.data)

/-- HttpRequestDispatcher::ConvertToType instantiated at a string target
type: URL-decode the input and return it, with no other transform. -/
def convertToTypeString (s : String) : String := urlDecode s

/-- The failure modes of std::stoi: no conversion could be performed
(std::invalid_argument) or the value falls outside the target range
(std::out_of_range). -/
inductive StoiError where
  | noConversion
  | outOfRange
deriving DecidableEq, Repr

/-- Smallest value of the 32-bit int target type of std::stoi. -/
def intMin : Int := -2147483648

/-- Largest value of the 32-bit int target type of std::stoi. -/
def intMax : Int := 2147483647

/-- Numeric value of a base-10 digit string. -/
def natOfDigits (ds : List Char) : Nat :=
  ds.foldl (fun acc c => 10 * acc + (c.toNat - 48)) 0

/-- The digit-consuming phase of std::stoi (strtol semantics): take the
longest leading run of decimal digits, fail with no-conversion if it is
empty, fail with out-of-range if the signed value does not fit a 32-bit
int, and otherwise return the value, ignoring whatever follows the
digits. -/
def stoiDigits (sign : Int) (cs : List Char) : Except StoiError Int :=
  let digits := cs.takeWhile (fun c => cIsDigit c)
  if digits.isEmpty then Except.error StoiError.noConversion
  else
    let v : Int := sign * (natOfDigits digits : Nat)
    if v < intMin ∨ intMax < v then Except.error StoiError.outOfRange
    else Except.ok v

/-- std::stoi: skip leading whitespace, consume an optional sign, then
parse the longest leading run of base-10 digits. -/
def stoiModel (s : String) : Except StoiError Int :=
  let cs := s.data.dropWhile (fun c => cIsSpace c)
  match cs with
  | [] => Except.error StoiError.noConversion
  | c :: t =>
    if c = '-' then stoiDigits (-1) t
    else if c = '+' then stoiDigits 1 t
    else stoiDigits 1 (c :: t)

/-- HttpRequestDispatcher::ConvertToType instantiated at the signed
integer target type int: return static_cast<int>(std::stoi(str)), turning
any std::stoi failure into the invalid-value error carrying the message
written at the throw site. -/
def convertToTypeInt (s : String) : Except String Int :=
  match stoiModel s with
  | Except.ok v => Except.ok v
  | Except.error _ => Except.error ("Invalid signed integer value: " ++ s)

/-! The dispatcher: HttpRequestDispatcher. -/

/-- Outcome of invoking a handler adapter: a returned response pointer
(possibly null), an exception derived from std::exception carrying a
message, or an exception of any other type. -/
inductive HandlerOutcome where
  | returns (response : Option SimpleHttpResponse)
  | throwsStd (message : String)
  | throwsOther

/-- A handler adapter: a function from (payload, path variables) to an
outcome, as stored in the per-method mapping tables. -/
abbrev Handler := String → List (String × String) → HandlerOutcome

/-- std::unordered_map::find on a mapping table (hash lookup; iteration
order of the table is never observed by the dispatcher). -/
def umapFind {α : Type} (k : String) : List (String × α) → Option α
  | [] => none
  | (k2, v) :: t => if k = k2 then some v else umapFind k t

/-- HttpRequestDispatcher: the nine per-method mapping tables and the
endpoint trie. -/
structure HttpRequestDispatcher where
  getMappings : List (String × Handler) := []
  postMappings : List (String × Handler) := []
  putMappings : List (String × Handler) := []
  patchMappings : List (String × Handler) := []
  deleteMappings : List (String × Handler) := []
  optionsMappings : List (String × Handler) := []
  headMappings : List (String × Handler) := []
  traceMappings : List (String × Handler) := []
  connectMappings : List (String × Handler) := []
  endpointTrie : TrieNode := TrieNode.empty

/-- The mapping table the switch statement of DispatchRequest selects for
each HTTP method. -/
def HttpRequestDispatcher.mappingsFor (d : HttpRequestDispatcher) :
    HttpMethod → List (String × Handler)
  | .GET => d.getMappings
  | .POST => d.postMappings
  | .PUT => d.putMappings
  | .PATCH => d.patchMappings
  | .DELETE => d.deleteMappings
  | .OPTIONS => d.optionsMappings
  | .HEAD => d.headMappings
  | .TRACE => d.traceMappings
  | .CONNECT => d.connectMappings

/-- HttpRequestDispatcher::DispatchRequest.  Search the trie with the
request path; on no match build the 404 envelope, convert it, stamp the
request id when non-empty, and return it.  Otherwise select the method's
mapping table; if it does not contain the matched pattern, return the null
response.  Otherwise invoke the handler: a returned non-null response is
stamped with the request id when the response id is empty and the request
id is not; an exception derived from std::exception yields the 500
envelope with the exception message; any other exception yields the 500
envelope with the fixed unknown-exception message. -/
def dispatchRequest (d : HttpRequestDispatcher) (request : HttpRequest) :
    Option SimpleHttpResponse :=
  let url := request.path
  let payload := request.body
  let result := EndpointTrie.Search d.endpointTrie url
  if result.found = false then
    let errorJson :=
      "\x7b\"error\":\"Not Found\",\"message\":\"No pattern matched for URL: "
        ++ url ++ "\"\x7d"
    let errorResponse := ResponseEntityString.NotFound errorJson
    let response := toHttpResponse errorResponse
    let requestId := request.requestId
    some (if requestId ≠ "" then setRequestId response requestId else response)
  else
    let vars := result.vars
    let patternUrl := result.pattern
    let requestId := request.requestId
    match umapFind patternUrl (d.mappingsFor request.method) with
    | none => none
    | some handler =>
      match handler payload vars with
      | HandlerOutcome.returns response =>
        match response with
        | some resp =>
          if requestId ≠ "" ∧ resp.requestId = "" then some (setRequestId resp requestId)
          else some resp
        | none => none
      | HandlerOutcome.throwsStd errorMessage =>
        let errorJson :=
          "\x7b\"error\":\"Internal Server Error\",\"message\":\"" ++ errorMessage ++ "\"\x7d"
        let errorResponse := ResponseEntityString.InternalServerError errorJson
        let response := toHttpResponse errorResponse
        some (if requestId ≠ "" then setRequestId response requestId else response)
      | HandlerOutcome.throwsOther =>
        let errorJson :=
          "\x7b\"error\":\"Internal Server Error\",\"message\":\"Unknown exception occurred\"\x7d"
        let errorResponse := ResponseEntityString.InternalServerError errorJson
        let response := toHttpResponse errorResponse
        some (if requestId ≠ "" then setRequestId response requestId else response)

/-! The queues and processors. -/

/-- HttpResponseQueue: the two response lanes (front of each list is the
front of the FIFO). -/
structure ResponseQueueState where
  localQueue : List SimpleHttpResponse
  cloudQueue : List SimpleHttpResponse
deriving DecidableEq, Repr

/-- HttpResponseQueue::EnqueueResponse: a null response is silently
dropped; otherwise the response is routed to a lane by its request
source. -/
def enqueueResponse (response : Option SimpleHttpResponse) (st : ResponseQueueState) :
    ResponseQueueState :=
  match response with
  | none => st
  | some r =>
    match r.source with
    | RequestSource.LocalServer => { st with localQueue := st.localQueue ++ [r] }
    | RequestSource.CloudServer => { st with cloudQueue := st.cloudQueue ++ [r] }

/-- HttpResponseQueue::DequeueLocalResponse: pop the front of the local
lane, or return null if it is empty. -/
def dequeueLocalResponse (st : ResponseQueueState) :
    Option SimpleHttpResponse × ResponseQueueState :=
  match st.localQueue with
  | [] => (none, st)
  | r :: rest => (some r, { st with localQueue := rest })

/-- HttpResponseQueue::IsEmpty: both lanes empty. -/
def responseQueueIsEmpty (st : ResponseQueueState) : Bool :=
  st.localQueue.isEmpty && st.cloudQueue.isEmpty

/-- Pipeline state seen by HttpRequestProcessor: the single request FIFO
and the two-lane response queue. -/
structure PipelineState where
  requestQueue : List HttpRequest
  responses : ResponseQueueState

/-- HttpRequestQueue::DequeueRequest: pop the front request, or return
null when the queue is empty. -/
def dequeueRequest (st : PipelineState) : Option HttpRequest × PipelineState :=
  match st.requestQueue with
  | [] => (none, st)
  | r :: rest => (some r, { st with requestQueue := rest })

/-- HttpRequestProcessor::ProcessRequest: return false when the request
queue is empty or the dequeue yields null; otherwise dispatch the request,
enqueue whatever the dispatcher returned (EnqueueResponse drops a null),
and report progress with true. -/
def processRequest (d : HttpRequestDispatcher) (st : PipelineState) : Bool × PipelineState :=
  if st.requestQueue.isEmpty then (false, st)
  else
    match dequeueRequest st with
    | (none, st1) => (false, st1)
    | (some request, st1) =>
      (true, { st1 with responses := enqueueResponse (dispatchRequest d request) st1.responses })

/-- The two transports registered with ServerProvider: the primary
(default) server and the second server. -/
inductive ServerRole where
  | primary
  | secondary
deriving DecidableEq, Repr

/-- ServerProvider::GetDefaultServer: the primary transport. -/
def serverProviderGetDefaultServer : ServerRole := ServerRole.primary

/-- ServerProvider::GetSecondServer: the secondary transport. -/
def serverProviderGetSecondServer : ServerRole := ServerRole.secondary

/-- A SendMessage call observed on a transport: which transport, the
request id, and the serialized response text. -/
structure SendCall where
  server : ServerRole
  requestId : String
  text : String
deriving DecidableEq, Repr

/-- HttpResponseProcessor::ProcessResponse (the two-lane variant under
src/): return false when the whole response queue is empty; pop the LOCAL
lane (null means false); with no server return false; drop responses whose
request id is empty or the literal ignore marker; drop responses whose
serialized form is empty; otherwise send the serialized response through
the processor's server and return false. -/
def processResponse (server : Option ServerRole) (st : ResponseQueueState) :
    Bool × ResponseQueueState × Option SendCall :=
  if responseQueueIsEmpty st then (false, st, none)
  else
    match dequeueLocalResponse st with
    | (none, st1) => (false, st1, none)
    | (some response, st1) =>
      match server with
      | none => (false, st1, none)
      | some srv =>
        let requestId := response.requestId
        if requestId = "" ∨ requestId = "ignore" then (false, st1, none)
        else
          let responseString := toHttpString response
          if responseString = "" then (false, st1, none)
          else (false, st1, some { server := srv, requestId := requestId, text := responseString })

/-- The server member of HttpResponseProcessor, bound in its constructor
to ServerProvider::GetSecondServer(). -/
def httpResponseProcessorServer : Option ServerRole := some serverProviderGetSecondServer

/-! Concrete fixtures used by the claim theorems. -/

/-- A trie holding only the pattern without trailing slash. -/
def trieXyz : TrieNode := EndpointTrie.Insert TrieNode.empty "/xyz"

/-- A trie holding only the one-variable user pattern. -/
def trieUser : TrieNode := EndpointTrie.Insert TrieNode.empty "/api/user/\x7buserId\x7d"

/-- A trie holding only the pattern with trailing slash. -/
def trieXyzSlash : TrieNode := EndpointTrie.Insert TrieNode.empty "/xyz/"

/-- A trie where the variable pattern with name z is inserted first and
the one with name b second. -/
def trieVarOrder : TrieNode :=
  EndpointTrie.Insert (EndpointTrie.Insert TrieNode.empty "/a/\x7bz\x7d") "/a/\x7bb\x7d"

/-- A dispatcher with no registered mappings and an empty trie. -/
def emptyDispatcher : HttpRequestDispatcher := {}

/-- A request arriving from the cloud transport for an unregistered
path. -/
def cloudReq : HttpRequest :=
  { method := HttpMethod.GET, path := "/unknown", body := "", requestId := "cloud_42",
    source := RequestSource.CloudServer }

/-- A handler that returns a 200 OK response. -/
def handlerOk : Handler := fun _ _ => HandlerOutcome.returns (some (createOkResponse "ok"))

/-- A dispatcher serving the pattern only for POST, with the pattern
inserted into the trie (as the constructor, which inserts every registered
pattern across all methods, would do). -/
def dPostOnly : HttpRequestDispatcher :=
  { postMappings := [("/a", handlerOk)], endpointTrie := EndpointTrie.Insert TrieNode.empty "/a" }

/-- A GET request for the pattern served only for POST. -/
def reqGetA : HttpRequest :=
  { method := HttpMethod.GET, path := "/a", body := "", requestId := "r4",
    source := RequestSource.LocalServer }

/-- A handler that fails with a std::exception-derived error. -/
def handlerBoom : Handler := fun _ _ => HandlerOutcome.throwsStd "kaput"

/-- A dispatcher whose only GET handler throws. -/
def dBoom : HttpRequestDispatcher :=
  { getMappings := [("/boom", handlerBoom)], endpointTrie := EndpointTrie.Insert TrieNode.empty "/boom" }

/-- A GET request routed to the throwing handler. -/
def reqBoom : HttpRequest :=
  { method := HttpMethod.GET, path := "/boom", body := "", requestId := "r6",
    source := RequestSource.LocalServer }

/-- A local request for a path no pattern matches. -/
def reqUnknown : HttpRequest :=
  { method := HttpMethod.GET, path := "/unknown/path", body := "", requestId := "rid-5",
    source := RequestSource.LocalServer }

/-- A response sitting at the front of the local lane. -/
def respLocalLane : SimpleHttpResponse :=
  { requestId := "local_1", source := RequestSource.LocalServer, statusCode := 200,
    statusMessage := "OK", headers := [], body := "hello" }

/-- A response queue whose local lane holds one response. -/
def stLocalLane : ResponseQueueState := { localQueue := [respLocalLane], cloudQueue := [] }

/-- A second response for the local lane, used independently. -/
def respLocalLane9 : SimpleHttpResponse :=
  { requestId := "local_9", source := RequestSource.LocalServer, statusCode := 200,
    statusMessage := "OK", headers := [], body := "body9" }

/-- A response queue whose local lane holds the second response. -/
def stLocalLane9 : ResponseQueueState := { localQueue := [respLocalLane9], cloudQueue := [] }

/-- A pipeline state whose request queue holds the GET request for the
POST-only pattern. -/
def pipelineStart : PipelineState :=
  { requestQueue := [reqGetA], responses := { localQueue := [], cloudQueue := [] } }

/-- A trie node that is an endpoint for a one-variable pattern, used to
exercise the variable-children loop in isolation. -/
def c8nodeB : TrieNode := TrieNode.mk [] [] "/p" true

/-! Helper lemmas. -/

/-- Base case of the C++ SearchRecursive recursion, holding definitionally
of searchRec. -/
theorem searchRec_nil (node : TrieNode) (vs : Vars) :
    searchRec node [] vs =
      (if node.isEndpoint then
        ({ pattern := node.endpointPattern, vars := vs, found := true }, vs)
      else (EndpointMatchResult.noMatch, vs)) := rfl

/-- The step case of the C++ SearchRecursive recursion holds
definitionally of searchRec: consuming one segment instantiates the fuel
of the recursive calls at exactly the bound searchRec itself uses, so the
fuel parameter is invisible in the recurrence. -/
theorem searchRec_cons (node : TrieNode) (seg : String) (rest : List String) (vs : Vars) :
    searchRec node (seg :: rest) vs =
      (if seg = "" then
        (if rest.isEmpty then
          (if node.isEndpoint && vs.isEmpty then
            ({ pattern := node.endpointPattern, vars := vs, found := true }, vs)
          else (EndpointMatchResult.noMatch, vs))
        else
          tryVariableChildren (fun c v => searchRec c rest v) node.variableChildren seg vs)
      else
        match mapFind seg node.literalChildren with
        | some literalChild =>
          let res := searchRec literalChild rest vs
          if res.1.found then res
          else
            tryVariableChildren (fun c v => searchRec c rest v) node.variableChildren seg res.2
        | none =>
          tryVariableChildren (fun c v => searchRec c rest v) node.variableChildren seg vs) := rfl

/-- Shared helper: when the trie matches the request path but the selected
method table has no entry for the matched pattern, DispatchRequest returns
the null response. -/
theorem dispatch_none_of_missing_handler (d : HttpRequestDispatcher) (req : HttpRequest)
    (pat : String) (vs : Vars)
    (hS : EndpointTrie.Search d.endpointTrie req.path =
      { pattern := pat, vars := vs, found := true })
    (hF : umapFind pat (d.mappingsFor req.method) = none) :
    dispatchRequest d req = none := by
  simp [dispatchRequest, hS, hF]

/-- Characters are determined by their code points. -/
theorem char_toNat_inj : ∀ (a b : Char), a.toNat = b.toNat → a = b := by
  intro a b h
  apply Char.ext
  have h2 : a.val.toNat = b.val.toNat := h
  exact UInt32.toNat.inj h2

/-- The lexicographic character-list order is total: two distinct lists
compare strictly in one direction or the other. -/
theorem charListLt_flip : ∀ (a b : List Char),
    charListLt a b = false → a ≠ b → charListLt b a = true := by
  intro a
  induction a with
  | nil =>
    intro b h hne
    cases b with
    | nil => exact absurd rfl hne
    | cons c t => simp [charListLt] at h
  | cons x xs ih =>
    intro b h hne
    cases b with
    | nil => simp [charListLt]
    | cons y ys =>
      by_cases h1 : x.toNat < y.toNat
      · simp [charListLt, h1] at h
      · by_cases h2 : y.toNat < x.toNat
        · simp [charListLt, h1, h2]
        · have hxy : x = y :=
            char_toNat_inj x y (Nat.le_antisymm (Nat.not_lt.mp h2) (Nat.not_lt.mp h1))
          subst hxy
          simp [charListLt, h1] at h ⊢
          refine ih ys h ?_
          intro he
          exact hne (by rw [he])

/-- Totality of the std::map string key order. -/
theorem stringLt_flip : ∀ (a b : String),
    stringLt a b = false → a ≠ b → stringLt b a = true := by
  intro a b h hne
  refine charListLt_flip a.data b.data h ?_
  intro he
  apply hne
  cases a; cases b
  exact congrArg String.mk he

/-- Unfolding of the sortedness predicate at two explicit entries. -/
theorem keysSorted_cons_cons {α : Type} (a b : String × α) (t : List (String × α)) :
    keysSorted (a :: b :: t) = (stringLt a.1 b.1 && keysSorted (b :: t)) := by
  by_cases h : stringLt a.1 b.1 = true <;> simp [keysSorted, h]

/-- Insert-or-assign on a std::map model preserves the strictly ascending
key order, so iteration over the map always visits keys in ascending
order, whatever the insertion sequence was. -/
theorem mapInsert_keysSorted {α : Type} : ∀ (l : List (String × α)) (k : String) (v : α),
    keysSorted l = true → keysSorted (mapInsert k v l) = true := by
  intro l
  induction l with
  | nil => intro k v _; simp [mapInsert, keysSorted]
  | cons p t ih =>
    intro k v h
    obtain ⟨k2, v2⟩ := p
    by_cases h1 : stringLt k k2 = true
    · simp [mapInsert, h1, keysSorted_cons_cons, h]
    · by_cases h2 : k = k2
      · subst h2
        cases t with
        | nil => simp [mapInsert, h1, keysSorted]
        | cons q t2 =>
          rw [keysSorted_cons_cons] at h
          obtain ⟨hlt, hsort⟩ := Bool.and_eq_true_iff.mp h
          simp [mapInsert, h1, keysSorted_cons_cons, hlt, hsort]
      · have hflip : stringLt k2 k = true :=
          stringLt_flip k k2 (Bool.not_eq_true _ ▸ Bool.of_not_eq_true h1) (h2)
        cases t with
        | nil =>
          simp [mapInsert, h1, h2, keysSorted_cons_cons, hflip, keysSorted]
        | cons q t2 =>
          rw [keysSorted_cons_cons] at h
          obtain ⟨hlt, hsort⟩ := Bool.and_eq_true_iff.mp h
          obtain ⟨k3, v3⟩ := q
          by_cases g1 : stringLt k k3 = true
          · simp [mapInsert, h1, h2, g1, keysSorted_cons_cons, hflip, hsort]
          · by_cases g2 : k = k3
            · subst g2
              cases t2 with
              | nil => simp [mapInsert, h1, h2, g1, keysSorted_cons_cons, hflip, keysSorted]
              | cons r t3 =>
                rw [keysSorted_cons_cons] at hsort
                obtain ⟨hlt2, hsort2⟩ := Bool.and_eq_true_iff.mp hsort
                simp [mapInsert, h1, h2, g1, keysSorted_cons_cons, hflip, hlt2, hsort2]
            · have hres := ih k v hsort
              simp [mapInsert, g1, g2] at hres
              simp [mapInsert, h1, h2, g1, g2, keysSorted_cons_cons, hlt, hres]

/-- takeWhile cuts an append exactly at the boundary when the predicate
holds of the whole first part and fails at the head of the second. -/
theorem takeWhile_all_append (p : Char → Bool) : ∀ (l1 l2 : List Char),
    (∀ c ∈ l1, p c = true) → (∀ c cs, l2 = c :: cs → p c = false) →
    (l1 ++ l2).takeWhile p = l1 := by
  intro l1
  induction l1 with
  | nil =>
    intro l2 _ h2
    cases l2 with
    | nil => rfl
    | cons c cs => simp [List.takeWhile_cons, h2 c cs rfl]
  | cons x xs ih =>
    intro l2 h1 h2
    have hx : p x = true := h1 x (List.mem_cons_self x xs)
    simp only [List.cons_append, List.takeWhile_cons, hx, if_true]
    rw [ih l2 (fun c hc => h1 c (List.mem_cons_of_mem x hc)) h2]

/-! Claim theorems. -/

/-- C1: every wire response built by the converter carries the constant
source RequestSource::LocalServer, written literally at every
SimpleHttpResponse construction site of ToHttpResponse and
CreateOkResponse.  In particular a request received with source
CloudServer and dispatched through the pipeline yields a wire response
whose source is LocalServer, not CloudServer, so the source of the wire
response does NOT equal the source of the originating request. -/
theorem C1_response_source_always_local :
    (∀ e : ResponseEntityString, (toHttpResponse e).source = RequestSource.LocalServer)
    ∧ (∀ b : String, (createOkResponse b).source = RequestSource.LocalServer)
    ∧ cloudReq.source = RequestSource.CloudServer
    ∧ (dispatchRequest emptyDispatcher cloudReq).map SimpleHttpResponse.source
        = some RequestSource.LocalServer := by
  refine ⟨fun e => rfl, fun b => rfl, rfl, ?_⟩
  decide

/-- C2 counterexample: with one response in the local lane, the response
processor pops the local lane and hands the SendMessage call to the
SECONDARY transport (the server its constructor takes from
ServerProvider::GetSecondServer), not the primary transport the claim
names. -/
theorem C2_local_lane_sent_via_secondary_counterexample :
    (processResponse httpResponseProcessorServer stLocalLane).2.2 =
      some { server := ServerRole.secondary, requestId := "local_1",
             text := toHttpString respLocalLane }
    ∧ ServerRole.secondary ≠ ServerRole.primary := by
  constructor
  · rfl
  · decide

/-- C2 amended: the response-drain step never pops the cloud lane, and
every response popped from the local lane (with a usable request id and a
non-empty serialization) is sent via the SECONDARY transport's
SendMessage. -/
theorem C2_response_drain_local_lane_secondary_transport :
    (∀ (server : Option ServerRole) (st : ResponseQueueState),
      ((processResponse server st).2.1).cloudQueue = st.cloudQueue)
    ∧ (∀ (st : ResponseQueueState) (resp : SimpleHttpResponse)
        (rest : List SimpleHttpResponse),
      st.localQueue = resp :: rest →
      resp.requestId ≠ "" → resp.requestId ≠ "ignore" → toHttpString resp ≠ "" →
      processResponse httpResponseProcessorServer st =
        (false, { st with localQueue := rest },
          some { server := ServerRole.secondary, requestId := resp.requestId,
                 text := toHttpString resp })) := by
  constructor
  · intro server st
    unfold processResponse
    cases h : st.localQueue
    all_goals cases server
    all_goals simp [responseQueueIsEmpty, dequeueLocalResponse, h]
    all_goals try (split <;> first | simp | (split <;> simp))
  · intro st resp rest hq h1 h2 h3
    simp [processResponse, responseQueueIsEmpty, dequeueLocalResponse, hq,
      httpResponseProcessorServer, serverProviderGetSecondServer, h1, h2, h3]

/-- C2 witness: the amended drain behaviour at a concrete one-element
local lane. -/
theorem C2_response_drain_witness :
    processResponse httpResponseProcessorServer stLocalLane9 =
      (false, { stLocalLane9 with localQueue := [] },
        some { server := ServerRole.secondary, requestId := respLocalLane9.requestId,
               text := toHttpString respLocalLane9 }) :=
  C2_response_drain_local_lane_secondary_transport.2 stLocalLane9 respLocalLane9 []
    (by rfl) (by decide) (by decide) (by decide)

/-- C3 counterexample: after Insert of the trailing-slash pattern, Search
of the same trailing-slash path returns not-found, because Insert stores
the endpoint mark on an empty-literal child that the sentinel branch of
SearchRecursive never descends into. -/
theorem C3_trailing_slash_pattern_unreachable_counterexample :
    EndpointTrie.Search trieXyzSlash "/xyz/" = EndpointMatchResult.noMatch
    ∧ EndpointMatchResult.noMatch.found = false := by
  constructor <;> decide

/-- C3 amended: when the last path segment is the sentinel empty segment,
the search succeeds iff the current node is an endpoint and no path
variables were bound; Insert of the slash-free pattern makes the
trailing-slash path match it, the variable pattern rejects the
trailing-slash path, but Insert of a trailing-slash pattern yields
not-found for the trailing-slash path (not the pattern itself, as the
claim stated). -/
theorem C3_trailing_slash_sentinel_rule :
    (∀ (node : TrieNode) (vs : Vars),
      (searchRec node [""] vs).1.found = (node.isEndpoint && vs.isEmpty))
    ∧ EndpointTrie.Search trieXyz "/xyz/" = { pattern := "/xyz", vars := [], found := true }
    ∧ (EndpointTrie.Search trieUser "/api/user/123/").found = false
    ∧ (EndpointTrie.Search trieXyzSlash "/xyz/").found = false := by
  refine ⟨?_, by decide, by decide, by decide⟩
  intro node vs
  cases h : node.isEndpoint && vs.isEmpty <;>
    simp [searchRec, searchRecFuel, h, EndpointMatchResult.noMatch]

/-- C4 counterexample: a GET request whose path matches a trie pattern
registered only for POST makes DispatchRequest return the null response,
not an error response. -/
theorem C4_missing_method_handler_null_counterexample :
    (EndpointTrie.Search dPostOnly.endpointTrie reqGetA.path).found = true
    ∧ dispatchRequest dPostOnly reqGetA = none := by
  constructor
  · decide
  · decide

/-- C4 amended: whenever the trie matches the request path but the
method's table has no entry for the matched pattern, DispatchRequest
produces NO response at all (it returns the null pointer). -/
theorem C4_missing_method_handler_returns_null :
    ∀ (d : HttpRequestDispatcher) (req : HttpRequest) (pat : String) (vs : Vars),
    EndpointTrie.Search d.endpointTrie req.path =
      { pattern := pat, vars := vs, found := true } →
    umapFind pat (d.mappingsFor req.method) = none →
    dispatchRequest d req = none := by
  intro d req pat vs hS hF
  exact dispatch_none_of_missing_handler d req pat vs hS hF

/-- C4 witness: the amended statement at the concrete POST-only
dispatcher. -/
theorem C4_missing_method_handler_witness :
    dispatchRequest dPostOnly reqGetA = none :=
  C4_missing_method_handler_returns_null dPostOnly reqGetA "/a" [] (by decide) (by rfl)

/-- C5: a request whose path matches no pattern yields a 404 Not Found
response whose body is exactly the not-found JSON document with the
request path substituted, and whose request id equals the request's id
whenever that id is non-empty. -/
theorem C5_not_found_envelope : ∀ (d : HttpRequestDispatcher) (req : HttpRequest),
    (EndpointTrie.Search d.endpointTrie req.path).found = false →
    ∃ resp, dispatchRequest d req = some resp
      ∧ resp.statusCode = 404
      ∧ resp.statusMessage = "Not Found"
      ∧ resp.body = "\x7b\"error\":\"Not Found\",\"message\":\"No pattern matched for URL: "
          ++ req.path ++ "\"\x7d"
      ∧ (req.requestId ≠ "" → resp.requestId = req.requestId) := by
  intro d req h
  by_cases hid : req.requestId = ""
  · refine ⟨toHttpResponse (ResponseEntityString.NotFound
      ("\x7b\"error\":\"Not Found\",\"message\":\"No pattern matched for URL: "
        ++ req.path ++ "\"\x7d")), ?_, rfl, rfl, rfl, ?_⟩
    · simp [dispatchRequest, h, hid]
    · intro hcon; exact absurd hid hcon
  · refine ⟨setRequestId (toHttpResponse (ResponseEntityString.NotFound
      ("\x7b\"error\":\"Not Found\",\"message\":\"No pattern matched for URL: "
        ++ req.path ++ "\"\x7d"))) req.requestId, ?_, rfl, rfl, rfl, ?_⟩
    · simp [dispatchRequest, h, hid]
    · intro _; rfl

/-- C5 witness: the 404 envelope for a concrete unmatched request. -/
theorem C5_not_found_envelope_witness :
    ∃ resp, dispatchRequest emptyDispatcher reqUnknown = some resp
      ∧ resp.statusCode = 404
      ∧ resp.statusMessage = "Not Found"
      ∧ resp.body = "\x7b\"error\":\"Not Found\",\"message\":\"No pattern matched for URL: "
          ++ reqUnknown.path ++ "\"\x7d"
      ∧ (reqUnknown.requestId ≠ "" → resp.requestId = reqUnknown.requestId) :=
  C5_not_found_envelope emptyDispatcher reqUnknown (by decide)

/-- C6: when the routed handler fails, with a std::exception-derived
error carrying a message or with an opaque error (whose detail is the
fixed unknown-exception text), DispatchRequest yields a 500 Internal
Server Error response with the internal-server-error JSON body carrying
the detail, and the request id is stamped whenever it is non-empty. -/
theorem C6_handler_exception_500 : ∀ (d : HttpRequestDispatcher) (req : HttpRequest)
    (pat : String) (vs : Vars) (handler : Handler) (detail : String),
    EndpointTrie.Search d.endpointTrie req.path =
      { pattern := pat, vars := vs, found := true } →
    umapFind pat (d.mappingsFor req.method) = some handler →
    (handler req.body vs = HandlerOutcome.throwsStd detail
      ∨ (handler req.body vs = HandlerOutcome.throwsOther
          ∧ detail = "Unknown exception occurred")) →
    ∃ resp, dispatchRequest d req = some resp
      ∧ resp.statusCode = 500
      ∧ resp.statusMessage = "Internal Server Error"
      ∧ resp.body = "\x7b\"error\":\"Internal Server Error\",\"message\":\"" ++ detail ++ "\"\x7d"
      ∧ (req.requestId ≠ "" → resp.requestId = req.requestId) := by
  intro d req pat vs handler detail hS hF hRun
  rcases hRun with hRun | ⟨hRun, hdet⟩
  · by_cases hid : req.requestId = ""
    · refine ⟨toHttpResponse (ResponseEntityString.InternalServerError
        ("\x7b\"error\":\"Internal Server Error\",\"message\":\"" ++ detail ++ "\"\x7d")),
        ?_, rfl, rfl, rfl, ?_⟩
      · simp [dispatchRequest, hS, hF, hRun, hid]
      · intro hcon; exact absurd hid hcon
    · refine ⟨setRequestId (toHttpResponse (ResponseEntityString.InternalServerError
        ("\x7b\"error\":\"Internal Server Error\",\"message\":\"" ++ detail ++ "\"\x7d")))
        req.requestId, ?_, rfl, rfl, rfl, ?_⟩
      · simp [dispatchRequest, hS, hF, hRun, hid]
      · intro _; rfl
  · subst hdet
    by_cases hid : req.requestId = ""
    · refine ⟨toHttpResponse (ResponseEntityString.InternalServerError
        ("\x7b\"error\":\"Internal Server Error\",\"message\":\"Unknown exception occurred\"\x7d")),
        ?_, rfl, rfl, ?_, ?_⟩
      · simp [dispatchRequest, hS, hF, hRun, hid]
      · rfl
      · intro hcon; exact absurd hid hcon
    · refine ⟨setRequestId (toHttpResponse (ResponseEntityString.InternalServerError
        ("\x7b\"error\":\"Internal Server Error\",\"message\":\"Unknown exception occurred\"\x7d")))
        req.requestId, ?_, rfl, rfl, ?_, ?_⟩
      · simp [dispatchRequest, hS, hF, hRun, hid]
      · rfl
      · intro _; rfl

/-- C6 witness: the 500 envelope for the concrete throwing handler. -/
theorem C6_handler_exception_500_witness :
    ∃ resp, dispatchRequest dBoom reqBoom = some resp
      ∧ resp.statusCode = 500
      ∧ resp.statusMessage = "Internal Server Error"
      ∧ resp.body = "\x7b\"error\":\"Internal Server Error\",\"message\":\"" ++ "kaput" ++ "\"\x7d"
      ∧ (reqBoom.requestId ≠ "" → resp.requestId = reqBoom.requestId) :=
  C6_handler_exception_500 dBoom reqBoom "/boom" [] handlerBoom "kaput"
    (by decide) (by rfl) (Or.inl rfl)

/-- C7 counterexample: ConvertToType at a signed integer target accepts
the input with trailing garbage and returns the value of the leading
digits, instead of failing as the claim states. -/
theorem C7_trailing_garbage_accepted_counterexample :
    convertToTypeInt "123abc" = Except.ok 123 := by rfl

/-- C7 amended: at an integer target, ConvertToType parses the longest
leading run of base-10 digits; overflow of the 32-bit range or an input
with no leading digits fails with the invalid-value error, but trailing
garbage after a valid digit prefix is ignored and the prefix's value is
returned. -/
theorem C7_integer_prefix_parse : ∀ (ds rest : List Char),
    ds ≠ [] → (∀ c ∈ ds, cIsDigit c = true) →
    (∀ c cs, rest = c :: cs → cIsDigit c = false) →
    (natOfDigits ds ≤ 2147483647 →
      convertToTypeInt (String.mk (ds ++ rest)) = Except.ok (natOfDigits ds : Int))
    ∧ (2147483647 < natOfDigits ds →
      convertToTypeInt (String.mk (ds ++ rest)) =
        Except.error ("Invalid signed integer value: " ++ String.mk (ds ++ rest))) := by
  intro ds rest hne hdig hrest
  obtain ⟨d, ds2, rfl⟩ : ∃ d ds2, ds = d :: ds2 := by
    cases ds with
    | nil => exact absurd rfl hne
    | cons d ds2 => exact ⟨d, ds2, rfl⟩
  have hd : cIsDigit d = true := hdig d (List.mem_cons_self d ds2)
  have hd48 : 48 ≤ d.toNat ∧ d.toNat ≤ 57 := by simpa [cIsDigit] using hd
  have hspace : cIsSpace d = false := by simp [cIsSpace]; omega
  have hdash : ¬(d = '-') := by
    intro he
    rw [he] at hd48
    exact absurd hd48.1 (by decide)
  have hplus : ¬(d = '+') := by
    intro he
    rw [he] at hd48
    exact absurd hd48.1 (by decide)
  have hdata : (String.mk ((d :: ds2) ++ rest)).data = d :: (ds2 ++ rest) := rfl
  have hdrop : (d :: (ds2 ++ rest)).dropWhile (fun c => cIsSpace c) = d :: (ds2 ++ rest) := by
    simp [List.dropWhile_cons, hspace]
  have htake : (d :: (ds2 ++ rest)).takeWhile (fun c => cIsDigit c) = d :: ds2 := by
    have h := takeWhile_all_append (fun c => cIsDigit c) (d :: ds2) rest hdig hrest
    simpa using h
  have hstoi : stoiModel (String.mk ((d :: ds2) ++ rest)) = stoiDigits 1 (d :: (ds2 ++ rest)) := by
    simp [stoiModel, hdata, hdrop, hdash, hplus]
  constructor
  · intro hle
    have hok : stoiDigits 1 (d :: (ds2 ++ rest)) = Except.ok (natOfDigits (d :: ds2) : Int) := by
      simp only [stoiDigits, htake, List.isEmpty_cons, Bool.false_eq_true, if_false, one_mul,
        intMin, intMax]
      rw [if_neg (by omega)]
    simp only [convertToTypeInt, hstoi, hok]
  · intro hgt
    have herr : stoiDigits 1 (d :: (ds2 ++ rest)) = Except.error StoiError.outOfRange := by
      simp only [stoiDigits, htake, List.isEmpty_cons, Bool.false_eq_true, if_false, one_mul,
        intMin, intMax]
      rw [if_pos (Or.inr (by exact_mod_cast hgt))]
    simp only [convertToTypeInt, hstoi, herr]

/-- C7 witness: the amended statement at a concrete digits-then-garbage
input. -/
theorem C7_integer_prefix_parse_witness :
    convertToTypeInt (String.mk (['4', '2'] ++ ['x', 'y'])) =
      Except.ok (natOfDigits ['4', '2'] : Int) :=
  (C7_integer_prefix_parse ['4', '2'] ['x', 'y'] (by decide) (by decide)
    (by intro c cs h; cases h; decide)).1 (by decide)

/-- C8 counterexample: after inserting the variable pattern with name z
first and the one with name b second, the search returns the pattern with
the lexicographically smaller name b, although insertion order would have
selected z; so insertion order does not decide among variable siblings. -/
theorem C8_variable_sibling_name_order_counterexample :
    EndpointTrie.Search trieVarOrder "/a/v" =
      { pattern := "/a/\x7bb\x7d", vars := [("b", "v")], found := true }
    ∧ ("/a/\x7bb\x7d" : String) ≠ "/a/\x7bz\x7d" := by
  constructor <;> decide

/-- C8 amended: variable children live in an ordered map keyed by variable
name, whose insert keeps keys strictly ascending, so a search tries
variable siblings in ascending name order and the first sibling that leads
to a match decides, regardless of insertion order. -/
theorem C8_variable_sibling_name_order :
    (∀ (α : Type) (k : String) (v : α) (l : List (String × α)),
      keysSorted l = true → keysSorted (mapInsert k v l) = true)
    ∧ (∀ (search : TrieNode → Vars → EndpointMatchResult × Vars) (n : String) (c : TrieNode)
        (cs : List (String × TrieNode)) (seg : String) (vs : Vars)
        (r : EndpointMatchResult) (vs2 : Vars),
      search c (mapInsert n seg vs) = (r, vs2) → r.found = true →
      tryVariableChildren search ((n, c) :: cs) seg vs = (r, vs2))
    ∧ EndpointTrie.Search trieVarOrder "/a/v" =
        { pattern := "/a/\x7bb\x7d", vars := [("b", "v")], found := true } := by
  refine ⟨fun α k v l h => mapInsert_keysSorted l k v h, ?_, by decide⟩
  intro search n c cs seg vs r vs2 hsearch hfound
  simp [tryVariableChildren, hsearch, hfound]

/-- C8 witness: the first-success rule of the variable-children loop at a
concrete sibling list. -/
theorem C8_variable_sibling_name_order_witness :
    tryVariableChildren (fun c v => searchRec c [] v)
        [("b", c8nodeB), ("z", TrieNode.empty)] "v" [] =
      ({ pattern := "/p", vars := [("b", "v")], found := true }, [("b", "v")]) :=
  C8_variable_sibling_name_order.2.1 (fun c v => searchRec c [] v) "b" c8nodeB
    [("z", TrieNode.empty)] "v" [] _ _ (by decide) (by decide)

/-- C9: ConvertToType at a string target returns the URL-decoded input
and applies no other transform; URL-decoding turns a percent sign followed
by two hexadecimal digits into the denoted byte, keeps a malformed percent
sign literally, turns a plus sign into a space, and copies every other
character. -/
theorem C9_url_decode_string_conversion :
    (∀ s, convertToTypeString s = urlDecode s)
    ∧ (∀ c1 c2 rest, cIsXdigit c1 = true → cIsXdigit c2 = true →
        urlDecodeList ('%' :: c1 :: c2 :: rest) =
          Char.ofNat (16 * hexVal c1 + hexVal c2) :: urlDecodeList rest)
    ∧ (∀ c1 c2 rest, (cIsXdigit c1 && cIsXdigit c2) = false →
        urlDecodeList ('%' :: c1 :: c2 :: rest) = '%' :: urlDecodeList (c1 :: c2 :: rest))
    ∧ (∀ c, urlDecodeList ['%', c] = '%' :: urlDecodeList [c])
    ∧ urlDecodeList ['%'] = ['%']
    ∧ (∀ rest, urlDecodeList ('+' :: rest) = ' ' :: urlDecodeList rest)
    ∧ (∀ c rest, c ≠ '%' → c ≠ '+' → urlDecodeList (c :: rest) = c :: urlDecodeList rest) := by
  refine ⟨fun s => rfl, ?_, ?_, ?_, rfl, ?_, ?_⟩
  · intro c1 c2 rest h1 h2
    simp [urlDecodeList, h1, h2]
  · intro c1 c2 rest h
    simp [urlDecodeList, h]
  · intro c
    rfl
  · intro rest
    cases rest with
    | nil => rfl
    | cons a t =>
      cases t with
      | nil => rfl
      | cons b t2 => rfl
  · intro c rest hp hplus
    cases rest with
    | nil => simp [urlDecodeList, hp, hplus]
    | cons a t =>
      cases t with
      | nil => simp [urlDecodeList, hp, hplus]
      | cons b t2 => simp [urlDecodeList, hp, hplus]

/-- C9 witness: the percent-decoding rule at a concrete encoded input. -/
theorem C9_url_decode_string_conversion_witness :
    urlDecodeList ('%' :: '4' :: '1' :: "+x".data) =
      Char.ofNat (16 * hexVal '4' + hexVal '1') :: urlDecodeList "+x".data :=
  C9_url_decode_string_conversion.2.1 '4' '1' "+x".data (by decide) (by decide)

/-- C10: when the dispatcher returns the null response (as it does when
the trie matches but the method's table lacks the pattern), ProcessRequest
still pops the request and returns true, and EnqueueResponse drops the
null, leaving both response lanes unchanged: the request is consumed and
no response is ever enqueued. -/
theorem C10_null_dispatch_consumes_request : ∀ (d : HttpRequestDispatcher)
    (st : PipelineState) (req : HttpRequest) (rest : List HttpRequest)
    (pat : String) (vs : Vars),
    st.requestQueue = req :: rest →
    EndpointTrie.Search d.endpointTrie req.path =
      { pattern := pat, vars := vs, found := true } →
    umapFind pat (d.mappingsFor req.method) = none →
    processRequest d st = (true, { requestQueue := rest, responses := st.responses }) := by
  intro d st req rest pat vs hq hS hF
  have hd := dispatch_none_of_missing_handler d req pat vs hS hF
  simp [processRequest, dequeueRequest, hq, hd, enqueueResponse]

/-- C10 witness: the concrete pipeline whose only request dispatches to
null is consumed with no response enqueued. -/
theorem C10_null_dispatch_consumes_request_witness :
    processRequest dPostOnly pipelineStart =
      (true, { requestQueue := [], responses := pipelineStart.responses }) :=
  C10_null_dispatch_consumes_request dPostOnly pipelineStart reqGetA [] "/a" []
    (by rfl) (by decide) (by rfl)

end SBPP
